import Mathlib

/-
Verification of src/src/freedreno/vulkan/tu_cs_breadcrumbs.c, the GPU-progress
breadcrumb tracer of the turnip Vulkan driver.

The shallow embedding below translates the C source into Lean:
- machine integers (uint32_t) become Nat with explicit reductions modulo 2^32
  where the C code can overflow (the `p_atomic_inc_return` counter, `%u`
  conversions, `htonl`);
- the command-stream cursor (tu_cs) is modelled as the ordered list of 32-bit
  command words written to it; the pm4 packet-header and WAIT_REG_MEM bitfield
  encodings are delegated to the cursor by the driver (they live in generated
  headers outside this file's source), so command words are modelled
  symbolically by constructors carrying the encoded fields;
- the poller thread body (`sync_gpu_with_cpu`) is modelled as a step function
  on its loop state, producing the ordered list of externally visible actions
  (UDP sends, log lines, the interactive prompt, the `cpu_seqno` ack store);
  the success of `sendto` is an input of the step;
- `tu_breadcrumbs_init` / `tu_breadcrumbs_finish` are modelled as functions on
  the device's breadcrumb slot, returning the ordered list of lifecycle
  actions they perform.
-/

set_option autoImplicit false

namespace TuBreadcrumbs

/-- The pm4 opcodes that appear in tu_cs_breadcrumbs.c: the nine opcodes of the
"before" filter switch, the five opcodes the sync burst itself emits, and a few
other opcodes (CP_NOP, the commented-out filter candidates) so that calls with
a filtered-out opcode can be stated. The numeric opcode values live in the
generated adreno_pm4 header and never matter to this file's source. -/
inductive Opcode where
  | CP_EXEC_CS_INDIRECT
  | CP_EXEC_CS
  | CP_DRAW_INDX
  | CP_DRAW_INDX_OFFSET
  | CP_DRAW_INDIRECT
  | CP_DRAW_INDX_INDIRECT
  | CP_DRAW_INDIRECT_MULTI
  | CP_DRAW_AUTO
  | CP_BLIT
  | CP_WAIT_MEM_WRITES
  | CP_WAIT_FOR_IDLE
  | CP_WAIT_FOR_ME
  | CP_MEM_WRITE
  | CP_WAIT_REG_MEM
  | CP_NOP
  | CP_SET_DRAW_STATE
  | CP_LOAD_STATE6_FRAG
  | CP_LOAD_STATE6_GEOM
  deriving DecidableEq, Repr

/-- tu_cs.h command-stream modes. The source only distinguishes
TU_CS_MODE_GROW from the rest; the two non-growable modes of tu_cs.h are
collapsed into `NOT_GROW` (the emitter treats them identically: it returns at
once on `cs->mode != TU_CS_MODE_GROW`). -/
inductive TuCsMode where
  | GROW
  | NOT_GROW
  deriving DecidableEq, Repr

/-- Comparison functions of the CP_WAIT_REG_MEM packet (adreno_pm4 enum); the
source uses only WRITE_EQ. -/
inductive WrmFunction where
  | WRITE_ALWAYS
  | WRITE_LT
  | WRITE_LE
  | WRITE_EQ
  | WRITE_NE
  | WRITE_GE
  | WRITE_GT
  deriving DecidableEq, Repr

/-- One 32-bit word written to the command stream. Encodings produced by
external macros are kept symbolic:
- `pkt7 op cnt` is `pm4_pkt7_hdr(op, cnt)` as emitted by `emit_pkt7`;
- `val v` is a raw value word (`tu_cs_emit(cs, current_breadcrumb)`);
- `qw v` is the two words of a `tu_cs_emit_qw(cs, v)` 64-bit address;
- `wrm0 f p` is `CP_WAIT_REG_MEM_0_FUNCTION(f) | (p ? CP_WAIT_REG_MEM_0_POLL_MEMORY : 0)`;
- `wrm3_ref r` is `CP_WAIT_REG_MEM_3_REF(r)`;
- `wrm4_mask m` is `CP_WAIT_REG_MEM_4_MASK(m)`;
- `wrm5_delay c` is `CP_WAIT_REG_MEM_5_DELAY_LOOP_CYCLES(c)`. -/
inductive CsWord where
  | pkt7 (opcode : Opcode) (cnt : Nat)
  | val (v : Nat)
  | qw (v : Nat)
  | wrm0 (func : WrmFunction) (poll_memory : Bool)
  | wrm3_ref (r : Nat)
  | wrm4_mask (m : Nat)
  | wrm5_delay (cycles : Nat)
  deriving DecidableEq, Repr

/-- struct breadcrumbs_context (tu_cs_breadcrumbs.c:83). `breadcrumb_idx` is
the process-wide atomic counter; all uint32_t fields are Nats kept below 2^32
by the operations that write them. -/
structure breadcrumbs_context where
  remote_host : String
  remote_port : Int
  breadcrumb_breakpoint : Nat
  breadcrumb_breakpoint_hits : Nat
  thread_stop : Bool
  breadcrumb_idx : Nat
  deriving DecidableEq, Repr

/-- The slice of struct tu_device the emitter reads: the iova of the global
buffer and the byte offsets of the two seqno fields inside struct tu6_global
(`gb_offset(breadcrumb_gpu_sync_seqno)` / `gb_offset(breadcrumb_cpu_sync_seqno)`). -/
structure tu_device where
  global_iova : Nat
  gb_offset_gpu_sync_seqno : Nat
  gb_offset_cpu_sync_seqno : Nat
  deriving DecidableEq, Repr

/-- The slice of struct tu_cs the emitter uses: its mode, the deferred-burst
slot `breadcrumb_emit_after`, and the words written so far (in order). -/
structure tu_cs where
  mode : TuCsMode
  breadcrumb_emit_after : Nat
  words : List CsWord
  deriving DecidableEq, Repr

/-- State touched by tu_cs_emit_sync_breadcrumb: the command stream and the
device's breadcrumbs_ctx slot (NULL when uninstrumented). -/
structure EmitState where
  cs : tu_cs
  ctx : Option breadcrumbs_context
  deriving DecidableEq, Repr

/-- tu_cs_emit: append one 32-bit word to the stream. -/
def tu_cs_emit (cs : tu_cs) (w : CsWord) : tu_cs :=
  { cs with words := cs.words ++ [w] }

/-- emit_pkt7 (tu_cs_breadcrumbs.c:158): reserve cnt+1 dwords and write the
pkt7 header. The reservation has no observable effect on a growable stream. -/
def emit_pkt7 (cs : tu_cs) (opcode : Opcode) (cnt : Nat) : tu_cs :=
  tu_cs_emit cs (CsWord.pkt7 opcode cnt)

/-- tu_cs_emit_qw: write a 64-bit value (two dwords). -/
def tu_cs_emit_qw (cs : tu_cs) (v : Nat) : tu_cs :=
  tu_cs_emit cs (CsWord.qw v)

/-- The switch of tu_cs_breadcrumbs.c:231: opcodes for which a "before" call
(cnt != 0) emits a burst. The commented-out candidates (CP_SET_DRAW_STATE,
CP_LOAD_STATE6_FRAG, CP_LOAD_STATE6_GEOM) fall through to default/return. -/
def before_opcode_allowed : Opcode → Bool
  | Opcode.CP_EXEC_CS_INDIRECT => true
  | Opcode.CP_EXEC_CS => true
  | Opcode.CP_DRAW_INDX => true
  | Opcode.CP_DRAW_INDX_OFFSET => true
  | Opcode.CP_DRAW_INDIRECT => true
  | Opcode.CP_DRAW_INDX_INDIRECT => true
  | Opcode.CP_DRAW_INDIRECT_MULTI => true
  | Opcode.CP_DRAW_AUTO => true
  | Opcode.CP_BLIT => true
  | _ => false

/-- The words of one sync burst publishing breadcrumb value i
(tu_cs_breadcrumbs.c:258-275), as one flat list. -/
def sync_burst (device : tu_device) (i : Nat) : List CsWord :=
  [CsWord.pkt7 Opcode.CP_WAIT_MEM_WRITES 0,
   CsWord.pkt7 Opcode.CP_WAIT_FOR_IDLE 0,
   CsWord.pkt7 Opcode.CP_WAIT_FOR_ME 0,
   CsWord.pkt7 Opcode.CP_MEM_WRITE 3,
   CsWord.qw (device.global_iova + device.gb_offset_gpu_sync_seqno),
   CsWord.val i,
   CsWord.pkt7 Opcode.CP_WAIT_REG_MEM 6,
   CsWord.wrm0 WrmFunction.WRITE_EQ true,
   CsWord.qw (device.global_iova + device.gb_offset_cpu_sync_seqno),
   CsWord.wrm3_ref i,
   CsWord.wrm4_mask (2 ^ 32 - 1),
   CsWord.wrm5_delay 16]

/-- The emit calls of tu_cs_breadcrumbs.c:258-275 in source order. `~0` on a
uint32_t mask is 2^32 - 1. -/
def emit_burst_words (device : tu_device) (cs : tu_cs) (i : Nat) : tu_cs :=
  let cs := emit_pkt7 cs Opcode.CP_WAIT_MEM_WRITES 0
  let cs := emit_pkt7 cs Opcode.CP_WAIT_FOR_IDLE 0
  let cs := emit_pkt7 cs Opcode.CP_WAIT_FOR_ME 0
  let cs := emit_pkt7 cs Opcode.CP_MEM_WRITE 3
  let cs := tu_cs_emit_qw cs
    (device.global_iova + device.gb_offset_gpu_sync_seqno)
  let cs := tu_cs_emit cs (CsWord.val i)
  let cs := emit_pkt7 cs Opcode.CP_WAIT_REG_MEM 6
  let cs := tu_cs_emit cs (CsWord.wrm0 WrmFunction.WRITE_EQ true)
  let cs := tu_cs_emit_qw cs
    (device.global_iova + device.gb_offset_cpu_sync_seqno)
  let cs := tu_cs_emit cs (CsWord.wrm3_ref i)
  let cs := tu_cs_emit cs (CsWord.wrm4_mask (2 ^ 32 - 1))
  tu_cs_emit cs (CsWord.wrm5_delay 16)

/-- tu_cs_emit_sync_breadcrumb (tu_cs_breadcrumbs.c:214). Faithful to the
source control flow:
- return if cs->mode != TU_CS_MODE_GROW;
- return if device->breadcrumbs_ctx is NULL or ctx->thread_stop;
- in the "before" case (cnt != 0), return unless the opcode is in the allowed
  switch; in the "after" case the source has a debug-build
  assert(cs->breadcrumb_emit_after == 0), compiled out under NDEBUG, with no
  effect on the state;
- current_breadcrumb = p_atomic_inc_return(&ctx->breadcrumb_idx), a uint32_t
  increment, i.e. (idx + 1) mod 2^32;
- return (with the counter already advanced) if breadcrumb_breakpoint != -1
  (as uint32_t: != 2^32 - 1) and current_breadcrumb < breadcrumb_breakpoint;
- emit the sync burst; in the "before" case set cs->breadcrumb_emit_after = cnt.
-/
def tu_cs_emit_sync_breadcrumb (device : tu_device) (st : EmitState)
    (opcode : Opcode) (cnt : Nat) : EmitState :=
  if st.cs.mode ≠ TuCsMode.GROW then st
  else
    match st.ctx with
    | none => st
    | some ctx =>
      if ctx.thread_stop then st
      else
        let before_packet : Bool := cnt ≠ 0
        if before_packet = true ∧ before_opcode_allowed opcode = false then st
        else
          let current_breadcrumb := (ctx.breadcrumb_idx + 1) % 2 ^ 32
          let ctx' := { ctx with breadcrumb_idx := current_breadcrumb }
          if ctx.breadcrumb_breakpoint ≠ 2 ^ 32 - 1 ∧
              current_breadcrumb < ctx.breadcrumb_breakpoint then
            { st with ctx := some ctx' }
          else
            let cs' := emit_burst_words device st.cs current_breadcrumb
            { cs :=
                if before_packet then
                  { cs' with breadcrumb_emit_after := cnt }
                else cs',
              ctx := some ctx' }

/-- htonl followed by sendto of the 4-byte uint32_t: the big-endian byte
sequence of v (v is a uint32_t, i.e. taken mod 2^32). -/
def htonl_bytes (v : Nat) : List Nat :=
  [v % 2 ^ 32 / 2 ^ 24, v % 2 ^ 24 / 2 ^ 16, v % 2 ^ 16 / 2 ^ 8, v % 2 ^ 8]

/-- Externally visible actions of one poller-loop iteration, in program
order:
- `send_udp p` is a successful sendto of datagram payload p;
- `log_sendto_failed` is the mesa_loge on a failed sendto (the datagram is
  not sent);
- `prompt_ack i` is the "GPU is on breadcrumb i, continue?" printf together
  with the getchar loop that blocks until a y is read from standard input;
- `write_cpu_seqno v` is the store global->breadcrumb_cpu_sync_seqno = v. -/
inductive PollerAction where
  | send_udp (payload : List Nat)
  | log_sendto_failed
  | prompt_ack (idx : Nat)
  | write_cpu_seqno (v : Nat)
  deriving DecidableEq, Repr

/-- The loop-local state of sync_gpu_with_cpu (tu_cs_breadcrumbs.c:98):
`last_breadcrumb` and `breakpoint_hits` are locals initialized to 0;
`cpu_seqno` is the shared global->breadcrumb_cpu_sync_seqno the loop writes. -/
structure PollerState where
  last_breadcrumb : Nat
  breakpoint_hits : Nat
  cpu_seqno : Nat
  deriving DecidableEq, Repr

/-- One iteration of the while loop of sync_gpu_with_cpu
(tu_cs_breadcrumbs.c:123-149). `current_breadcrumb` is the value this
iteration reads from global->breadcrumb_gpu_sync_seqno; `send_ok` is whether
the sendto call succeeds. Returns the new loop state, the ordered actions
performed, and whether the loop continues (false on the `goto fail` after a
failed send). Source order: update last_breadcrumb, send, prompt check
(against the hit count accumulated in earlier iterations), hit-count
increment, ack store. -/
def sync_gpu_with_cpu_iter (ctx : breadcrumbs_context) (st : PollerState)
    (current_breadcrumb : Nat) (send_ok : Bool) :
    PollerState × List PollerAction × Bool :=
  if current_breadcrumb = st.last_breadcrumb then (st, [], true)
  else
    let st := { st with last_breadcrumb := current_breadcrumb }
    let payload := htonl_bytes current_breadcrumb
    if send_ok = false then
      (st, [PollerAction.log_sendto_failed], false)
    else
      let prompt_acts :=
        if current_breadcrumb ≥ ctx.breadcrumb_breakpoint ∧
            st.breakpoint_hits ≥ ctx.breadcrumb_breakpoint_hits then
          [PollerAction.prompt_ack current_breadcrumb]
        else []
      let st :=
        if ctx.breadcrumb_breakpoint = current_breadcrumb then
          { st with breakpoint_hits := st.breakpoint_hits + 1 }
        else st
      let st := { st with cpu_seqno := current_breadcrumb }
      (st,
       PollerAction.send_udp payload ::
         (prompt_acts ++ [PollerAction.write_cpu_seqno current_breadcrumb]),
       true)

/-- Iterated poller loop over a schedule of observations: each schedule entry
gives the value read from gpu_seqno in that iteration and whether its sendto
(if reached) succeeds. Stops early when an iteration exits the loop. -/
def sync_gpu_with_cpu_run (ctx : breadcrumbs_context) (st : PollerState) :
    List (Nat × Bool) → PollerState × List PollerAction
  | [] => (st, [])
  | (cur, ok) :: rest =>
    match sync_gpu_with_cpu_iter ctx st cur ok with
    | (st', acts, cont) =>
      if cont then
        match sync_gpu_with_cpu_run ctx st' rest with
        | (st'', acts') => (st'', acts ++ acts')
      else (st', acts)

/-- Recognizer for the interactive-prompt action. -/
def is_prompt_ack : PollerAction → Bool
  | PollerAction.prompt_ack _ => true
  | _ => false

/-- Recognizer for a successful UDP send action. -/
def is_send_udp : PollerAction → Bool
  | PollerAction.send_udp _ => true
  | _ => false

/-- The whitespace class skipped by the %d and %u scanf conversions
(C isspace in the default locale). -/
def is_scanf_space (c : Char) : Bool :=
  c = ' ' || c = '\t' || c = '\n' || c = '\x0b' || c = '\x0c' || c = '\r'

/-- Value of a (non-empty) decimal digit string. -/
def dec_value (ds : List Char) : Nat :=
  ds.foldl (fun a c => a * 10 + (c.toNat - 48)) 0

/-- The %[^:] conversion: the longest non-empty prefix of characters other
than a colon (no leading-whitespace skip for %[). Fails on an empty match.
The 64-byte remote_host buffer bound is not modelled (inputs of 64 or more
host characters overflow the buffer in the C source). -/
def scan_host (cs : List Char) : Option (String × List Char) :=
  let h := cs.takeWhile (fun c => c ≠ ':')
  if h.isEmpty then none
  else some (String.mk h, cs.dropWhile (fun c => c ≠ ':'))

/-- Match a sequence of literal format characters exactly. -/
def scan_lits : List Char → List Char → Option (List Char)
  | [], cs => some cs
  | _ :: _, [] => none
  | l :: ls, c :: cs => if c = l then scan_lits ls cs else none

/-- The %d conversion: skip whitespace, optional sign, at least one decimal
digit; signed value (the int it is stored into is modelled as an unbounded
Int; the PORT values in scope fit easily). -/
def scan_d (cs : List Char) : Option (Int × List Char) :=
  let cs := cs.dropWhile is_scanf_space
  match cs with
  | '-' :: rest =>
    let ds := rest.takeWhile Char.isDigit
    if ds.isEmpty then none
    else some (-(dec_value ds : Int), rest.dropWhile Char.isDigit)
  | '+' :: rest =>
    let ds := rest.takeWhile Char.isDigit
    if ds.isEmpty then none
    else some ((dec_value ds : Int), rest.dropWhile Char.isDigit)
  | _ =>
    let ds := cs.takeWhile Char.isDigit
    if ds.isEmpty then none
    else some ((dec_value ds : Int), cs.dropWhile Char.isDigit)

/-- The %u conversion: like %d (a sign is accepted) but converted to
uint32_t, so a negative input wraps modulo 2^32 — this is how "break=-1:0"
yields the all-ones sentinel 2^32 - 1. -/
def scan_u (cs : List Char) : Option (Nat × List Char) :=
  let cs := cs.dropWhile is_scanf_space
  match cs with
  | '-' :: rest =>
    let ds := rest.takeWhile Char.isDigit
    if ds.isEmpty then none
    else some ((2 ^ 32 - dec_value ds % 2 ^ 32) % 2 ^ 32,
               rest.dropWhile Char.isDigit)
  | '+' :: rest =>
    let ds := rest.takeWhile Char.isDigit
    if ds.isEmpty then none
    else some (dec_value ds % 2 ^ 32, rest.dropWhile Char.isDigit)
  | _ =>
    let ds := cs.takeWhile Char.isDigit
    if ds.isEmpty then none
    else some (dec_value ds % 2 ^ 32, cs.dropWhile Char.isDigit)

/-- sscanf(opt, "%[^:]:%d,break=%u:%u", ...) == 4 (tu_cs_breadcrumbs.c:184):
some (host, port, breakpoint, hits) exactly when all four conversions
succeed, none when sscanf returns fewer than 4. -/
def parse_breadcrumbs_opt (s : String) :
    Option (String × Int × Nat × Nat) := do
  let (host, r1) ← scan_host s.data
  let r2 ← scan_lits [':'] r1
  let (port, r3) ← scan_d r2
  let r4 ← scan_lits [',', 'b', 'r', 'e', 'a', 'k', '='] r3
  let (bp, r5) ← scan_u r4
  let r6 ← scan_lits [':'] r5
  let (hits, _) ← scan_u r6
  some (host, port, bp, hits)

/-- Externally visible actions of tu_breadcrumbs_init, in program order. -/
inductive InitAction where
  | log_wrong_value
  | zero_cpu_seqno
  | zero_gpu_seqno
  | spawn_poller
  deriving DecidableEq, Repr

/-- tu_breadcrumbs_init (tu_cs_breadcrumbs.c:165). Input: the TU_BREADCRUMBS
option string (none when unset or when the build lacks
TU_BREADCRUMBS_ENABLED). Output: the device->breadcrumbs_ctx slot and the
ordered lifecycle actions. On a parse failure the freshly allocated context
is freed and an error is logged; on success the context starts with
breadcrumb_idx = 0 and thread_stop = false, both seqnos are zeroed
(cpu first, then gpu), and then the poller thread is spawned. -/
def tu_breadcrumbs_init (opt : Option String) :
    Option breadcrumbs_context × List InitAction :=
  match opt with
  | none => (none, [])
  | some s =>
    match parse_breadcrumbs_opt s with
    | none => (none, [InitAction.log_wrong_value])
    | some (host, port, bp, hits) =>
      (some { remote_host := host
              remote_port := port
              breadcrumb_breakpoint := bp
              breadcrumb_breakpoint_hits := hits
              thread_stop := false
              breadcrumb_idx := 0 },
       [InitAction.zero_cpu_seqno, InitAction.zero_gpu_seqno,
        InitAction.spawn_poller])

/-- The device's breadcrumb slot as tu_breadcrumbs_finish sees it. The C
source frees the context but never clears device->breadcrumbs_ctx, so the
model keeps the pointed-to record (whose thread_stop was set to true just
before the free) and records the release in `ctx_freed`; reads through the
stale pointer return the retained contents, which is what the source's
early-return guard relies on when finish is called twice. -/
structure DeviceCtxState where
  breadcrumbs_ctx : Option breadcrumbs_context
  ctx_freed : Bool
  deriving DecidableEq, Repr

/-- Externally visible actions of tu_breadcrumbs_finish, in program order. -/
inductive FinishAction where
  | join_poller_thread
  | free_ctx
  deriving DecidableEq, Repr

/-- tu_breadcrumbs_finish (tu_cs_breadcrumbs.c:201): return if the slot is
NULL or the context is already stopping; otherwise set thread_stop, join the
poller thread, free the context. -/
def tu_breadcrumbs_finish (dev : DeviceCtxState) :
    DeviceCtxState × List FinishAction :=
  match dev.breadcrumbs_ctx with
  | none => (dev, [])
  | some ctx =>
    if ctx.thread_stop then (dev, [])
    else
      ({ breadcrumbs_ctx := some { ctx with thread_stop := true },
         ctx_freed := true },
       [FinishAction.join_poller_thread, FinishAction.free_ctx])

/-- Whether a call with this opcode/cnt pair passes the emitter's opcode
filter: "after" calls (cnt == 0) always do, "before" calls only for the
allowed opcodes. (The mode and live-context filters are state conditions,
stated separately.) -/
def passes_op (opcode : Opcode) (cnt : Nat) : Bool :=
  cnt == 0 || before_opcode_allowed opcode

/-- Breadcrumb index stored in the context slot of an EmitState (0 when no
context — the value is only read under a live-context hypothesis). -/
def ctx_idx (st : EmitState) : Nat :=
  match st.ctx with
  | some c => c.breadcrumb_idx
  | none => 0

/-- The breadcrumb values received by the calls of a call sequence that pass
all filters, in order. A call passed the filters exactly when it advanced the
atomic counter, and the value it received (current_breadcrumb) is the
counter's new value. -/
def emit_calls_received (device : tu_device) (st : EmitState) :
    List (Opcode × Nat) → List Nat
  | [] => []
  | (op, cnt) :: rest =>
    let st' := tu_cs_emit_sync_breadcrumb device st op cnt
    let tail := emit_calls_received device st' rest
    if ctx_idx st' ≠ ctx_idx st then ctx_idx st' :: tail else tail

/-- A concrete device for witnesses: global buffer at iova 0x100000, gpu/cpu
seqnos at byte offsets 32 and 36. -/
def dev0 : tu_device :=
  { global_iova := 1048576
    gb_offset_gpu_sync_seqno := 32
    gb_offset_cpu_sync_seqno := 36 }

/-- A concrete just-initialized context for witnesses: the configuration
"127.0.0.1:9999,break=-1:0" (sentinel breakpoint, zero hits). -/
def ctx0 : breadcrumbs_context :=
  { remote_host := "127.0.0.1"
    remote_port := 9999
    breadcrumb_breakpoint := 2 ^ 32 - 1
    breadcrumb_breakpoint_hits := 0
    thread_stop := false
    breadcrumb_idx := 0 }

/-- A concrete empty growable command stream for witnesses. -/
def cs0 : tu_cs :=
  { mode := TuCsMode.GROW
    breadcrumb_emit_after := 0
    words := [] }

/-- A concrete emitter state for witnesses: empty growable stream, live
just-initialized context. -/
def st0 : EmitState :=
  { cs := cs0, ctx := some ctx0 }

/-- The poller's initial loop state: both locals and the shared cpu seqno
are 0 when the thread starts. -/
def pst0 : PollerState :=
  { last_breadcrumb := 0, breakpoint_hits := 0, cpu_seqno := 0 }

/- Helper lemmas about the emitter. -/

/-- Sequencing the twelve emit calls of the burst appends exactly the
sync_burst word list. -/
lemma emit_burst_words_eq (device : tu_device) (cs : tu_cs) (i : Nat) :
    emit_burst_words device cs i =
      { cs with words := cs.words ++ sync_burst device i } := by
  simp [emit_burst_words, emit_pkt7, tu_cs_emit, tu_cs_emit_qw, sync_burst]

/-- A "before" call with an opcode outside the allowed switch leaves the
whole state unchanged, whatever the mode, context and counter are. -/
lemma emit_nop_of_bad_opcode (device : tu_device) (st : EmitState)
    (opcode : Opcode) (cnt : Nat) (hcnt : cnt ≠ 0)
    (hop : before_opcode_allowed opcode = false) :
    tu_cs_emit_sync_breadcrumb device st opcode cnt = st := by
  unfold tu_cs_emit_sync_breadcrumb
  by_cases hm : st.cs.mode = TuCsMode.GROW
  · cases hctx : st.ctx with
    | none => simp [hm, hctx]
    | some c =>
      by_cases hs : c.thread_stop
      · simp [hm, hctx, hs]
      · simp [hm, hctx, hs, hcnt, hop]
  · simp [hm]

/-- A passing call that the breakpoint gate suppresses advances only the
counter. -/
lemma emit_pass_suppressed (device : tu_device) (st : EmitState)
    (opcode : Opcode) (cnt : Nat) (c : breadcrumbs_context)
    (hm : st.cs.mode = TuCsMode.GROW) (hc : st.ctx = some c)
    (hs : c.thread_stop = false) (hop : passes_op opcode cnt = true)
    (hbp : c.breadcrumb_breakpoint ≠ 2 ^ 32 - 1)
    (hlt : (c.breadcrumb_idx + 1) % 2 ^ 32 < c.breadcrumb_breakpoint) :
    tu_cs_emit_sync_breadcrumb device st opcode cnt =
      { st with
          ctx := some { c with
            breadcrumb_idx := (c.breadcrumb_idx + 1) % 2 ^ 32 } } := by
  unfold tu_cs_emit_sync_breadcrumb
  have hbp' : ¬c.breadcrumb_breakpoint = 4294967295 := by simpa using hbp
  have hlt' : (c.breadcrumb_idx + 1) % 4294967296 < c.breadcrumb_breakpoint := by
    simpa using hlt
  by_cases hcnt : cnt = 0
  · simp [hm, hc, hs, hcnt, hbp', hlt']
  · have hall : before_opcode_allowed opcode = true := by
      simpa [passes_op, hcnt] using hop
    simp [hm, hc, hs, hcnt, hall, hbp', hlt']

/-- A passing call that the breakpoint gate lets through advances the counter
and appends the sync burst; a "before" call additionally records cnt in
breadcrumb_emit_after. -/
lemma emit_pass_burst (device : tu_device) (st : EmitState)
    (opcode : Opcode) (cnt : Nat) (c : breadcrumbs_context)
    (hm : st.cs.mode = TuCsMode.GROW) (hc : st.ctx = some c)
    (hs : c.thread_stop = false) (hop : passes_op opcode cnt = true)
    (hgate : ¬(c.breadcrumb_breakpoint ≠ 2 ^ 32 - 1 ∧
        (c.breadcrumb_idx + 1) % 2 ^ 32 < c.breadcrumb_breakpoint)) :
    tu_cs_emit_sync_breadcrumb device st opcode cnt =
      { cs :=
          { st.cs with
              breadcrumb_emit_after :=
                if cnt ≠ 0 then cnt else st.cs.breadcrumb_emit_after,
              words :=
                st.cs.words ++
                  sync_burst device ((c.breadcrumb_idx + 1) % 2 ^ 32) },
        ctx := some { c with
          breadcrumb_idx := (c.breadcrumb_idx + 1) % 2 ^ 32 } } := by
  unfold tu_cs_emit_sync_breadcrumb
  have hgate' : ¬(¬c.breadcrumb_breakpoint = 4294967295 ∧
      (c.breadcrumb_idx + 1) % 4294967296 < c.breadcrumb_breakpoint) := by
    simpa using hgate
  by_cases hcnt : cnt = 0
  · simp [hm, hc, hs, hcnt, hgate', emit_burst_words_eq]
  · have hall : before_opcode_allowed opcode = true := by
      simpa [passes_op, hcnt] using hop
    simp [hm, hc, hs, hcnt, hall, hgate', emit_burst_words_eq]

/-- The uint32_t increment-and-return value always differs from the previous
counter value, so a call passed the filters exactly when the counter moved. -/
lemma succ_mod_u32_ne (n : Nat) : (n + 1) % 2 ^ 32 ≠ n := by omega

/-- Shifting the start of the index arithmetic through a mod-2^32 reduction. -/
lemma shift_mod_u32 (a k : Nat) :
    (a % 2 ^ 32 + 1 + k) % 2 ^ 32 = (a + 1 + k) % 2 ^ 32 := by omega

/-- A call that fails the opcode/cnt filter leaves the state unchanged. -/
lemma emit_nop_of_not_passes (device : tu_device) (st : EmitState)
    (opcode : Opcode) (cnt : Nat) (hop : passes_op opcode cnt = false) :
    tu_cs_emit_sync_breadcrumb device st opcode cnt = st := by
  have h : ¬cnt = 0 ∧ before_opcode_allowed opcode = false := by
    simpa [passes_op] using hop
  exact emit_nop_of_bad_opcode device st opcode cnt h.1 h.2

/-- A passing call advances the counter by one modulo 2^32 and preserves the
command-stream mode, whatever the breakpoint gate decides. -/
lemma emit_pass_state (device : tu_device) (st : EmitState)
    (opcode : Opcode) (cnt : Nat) (c : breadcrumbs_context)
    (hm : st.cs.mode = TuCsMode.GROW) (hc : st.ctx = some c)
    (hs : c.thread_stop = false) (hop : passes_op opcode cnt = true) :
    (tu_cs_emit_sync_breadcrumb device st opcode cnt).ctx =
      some { c with breadcrumb_idx := (c.breadcrumb_idx + 1) % 2 ^ 32 } ∧
    (tu_cs_emit_sync_breadcrumb device st opcode cnt).cs.mode = st.cs.mode := by
  by_cases hg : c.breadcrumb_breakpoint ≠ 2 ^ 32 - 1 ∧
      (c.breadcrumb_idx + 1) % 2 ^ 32 < c.breadcrumb_breakpoint
  · rw [emit_pass_suppressed device st opcode cnt c hm hc hs hop hg.1 hg.2]
    exact ⟨rfl, rfl⟩
  · rw [emit_pass_burst device st opcode cnt c hm hc hs hop hg]
    exact ⟨rfl, hm.symm ▸ rfl⟩

/-- Starting from a live context, the breadcrumb values received by the
filtered calls of any call sequence are consecutive uint32_t values
continuing the counter. -/
lemma emit_calls_received_eq (device : tu_device)
    (calls : List (Opcode × Nat)) :
    ∀ (st : EmitState) (c : breadcrumbs_context),
      st.cs.mode = TuCsMode.GROW → st.ctx = some c → c.thread_stop = false →
      emit_calls_received device st calls =
        List.map (fun k => (c.breadcrumb_idx + 1 + k) % 2 ^ 32)
          (List.range (List.countP (fun p => passes_op p.1 p.2) calls)) := by
  induction calls with
  | nil =>
    intro st c _ _ _
    simp [emit_calls_received]
  | cons head rest ih =>
    intro st c hm hc hs
    obtain ⟨op, cnt⟩ := head
    cases hp : passes_op op cnt with
    | false =>
      have hst : tu_cs_emit_sync_breadcrumb device st op cnt = st :=
        emit_nop_of_not_passes device st op cnt hp
      simp only [emit_calls_received, hst, ne_eq, not_true_eq_false,
        if_false, ite_false]
      rw [ih st c hm hc hs]
      simp [List.countP_cons, hp]
    | true =>
      obtain ⟨hctx', hmode'⟩ :=
        emit_pass_state device st op cnt c hm hc hs hp
      have hidx' : ctx_idx (tu_cs_emit_sync_breadcrumb device st op cnt) =
          (c.breadcrumb_idx + 1) % 2 ^ 32 := by
        simp [ctx_idx, hctx']
      have hidx : ctx_idx st = c.breadcrumb_idx := by simp [ctx_idx, hc]
      have hne : ctx_idx (tu_cs_emit_sync_breadcrumb device st op cnt) ≠
          ctx_idx st := by
        rw [hidx', hidx]; exact succ_mod_u32_ne _
      have hm' : (tu_cs_emit_sync_breadcrumb device st op cnt).cs.mode =
          TuCsMode.GROW := by
        rw [hmode', hm]
      have htail := ih (tu_cs_emit_sync_breadcrumb device st op cnt)
        { c with breadcrumb_idx := (c.breadcrumb_idx + 1) % 2 ^ 32 }
        hm' hctx' hs
      simp only [emit_calls_received]
      rw [if_pos hne, htail, hidx']
      rw [List.countP_cons, hp, if_pos rfl, List.range_succ_eq_map,
        List.map_cons, List.map_map]
      have hfun : ((fun k => (c.breadcrumb_idx + 1 + k) % 2 ^ 32) ∘ Nat.succ) =
          fun k => ((c.breadcrumb_idx + 1) % 2 ^ 32 + 1 + k) % 2 ^ 32 := by
        funext k
        simp only [Function.comp_apply]
        omega
      rw [hfun]

/- Claim theorems. -/

/-- C1: for every call to tu_cs_emit_sync_breadcrumb that passes the mode,
context and opcode filters and is not suppressed by the breakpoint gate, the
GPU packets written to the command stream are exactly, in order:
WAIT_MEM_WRITES, WAIT_FOR_IDLE, WAIT_FOR_ME, MEM_WRITE of the current
breadcrumb index i to the gpu_seqno address, and WAIT_REG_MEM (function EQ,
poll memory, mask ~0, delay loop 16) on the cpu_seqno address with reference
value i — with no other packets interleaved. -/
theorem C1_sync_burst_packets (device : tu_device) (st : EmitState)
    (opcode : Opcode) (cnt : Nat) (c : breadcrumbs_context)
    (hm : st.cs.mode = TuCsMode.GROW) (hc : st.ctx = some c)
    (hs : c.thread_stop = false)
    (hop : cnt ≠ 0 → before_opcode_allowed opcode = true)
    (hgate : ¬(c.breadcrumb_breakpoint ≠ 2 ^ 32 - 1 ∧
        (c.breadcrumb_idx + 1) % 2 ^ 32 < c.breadcrumb_breakpoint)) :
    (tu_cs_emit_sync_breadcrumb device st opcode cnt).cs.words =
      st.cs.words ++
        [CsWord.pkt7 Opcode.CP_WAIT_MEM_WRITES 0,
         CsWord.pkt7 Opcode.CP_WAIT_FOR_IDLE 0,
         CsWord.pkt7 Opcode.CP_WAIT_FOR_ME 0,
         CsWord.pkt7 Opcode.CP_MEM_WRITE 3,
         CsWord.qw (device.global_iova + device.gb_offset_gpu_sync_seqno),
         CsWord.val ((c.breadcrumb_idx + 1) % 2 ^ 32),
         CsWord.pkt7 Opcode.CP_WAIT_REG_MEM 6,
         CsWord.wrm0 WrmFunction.WRITE_EQ true,
         CsWord.qw (device.global_iova + device.gb_offset_cpu_sync_seqno),
         CsWord.wrm3_ref ((c.breadcrumb_idx + 1) % 2 ^ 32),
         CsWord.wrm4_mask (2 ^ 32 - 1),
         CsWord.wrm5_delay 16] := by
  have hpass : passes_op opcode cnt = true := by
    by_cases hcnt : cnt = 0
    · simp [passes_op, hcnt]
    · simp [passes_op, hcnt, hop hcnt]
  rw [emit_pass_burst device st opcode cnt c hm hc hs hpass hgate]
  rfl

/-- C1 witness: the first DRAW_INDX "before" call on a fresh sentinel-config
state emits exactly the twelve burst words for breadcrumb 1. -/
theorem C1_sync_burst_packets_witness :
    st0.cs.mode = TuCsMode.GROW ∧ st0.ctx = some ctx0 ∧
    ctx0.thread_stop = false ∧
    ((4 : Nat) ≠ 0 → before_opcode_allowed Opcode.CP_DRAW_INDX = true) ∧
    ¬(ctx0.breadcrumb_breakpoint ≠ 2 ^ 32 - 1 ∧
        (ctx0.breadcrumb_idx + 1) % 2 ^ 32 < ctx0.breadcrumb_breakpoint) ∧
    (tu_cs_emit_sync_breadcrumb dev0 st0 Opcode.CP_DRAW_INDX 4).cs.words =
      st0.cs.words ++
        [CsWord.pkt7 Opcode.CP_WAIT_MEM_WRITES 0,
         CsWord.pkt7 Opcode.CP_WAIT_FOR_IDLE 0,
         CsWord.pkt7 Opcode.CP_WAIT_FOR_ME 0,
         CsWord.pkt7 Opcode.CP_MEM_WRITE 3,
         CsWord.qw (dev0.global_iova + dev0.gb_offset_gpu_sync_seqno),
         CsWord.val ((ctx0.breadcrumb_idx + 1) % 2 ^ 32),
         CsWord.pkt7 Opcode.CP_WAIT_REG_MEM 6,
         CsWord.wrm0 WrmFunction.WRITE_EQ true,
         CsWord.qw (dev0.global_iova + dev0.gb_offset_cpu_sync_seqno),
         CsWord.wrm3_ref ((ctx0.breadcrumb_idx + 1) % 2 ^ 32),
         CsWord.wrm4_mask (2 ^ 32 - 1),
         CsWord.wrm5_delay 16] :=
  ⟨rfl, rfl, rfl, fun _ => rfl, by decide,
   C1_sync_burst_packets dev0 st0 Opcode.CP_DRAW_INDX 4 ctx0 rfl rfl rfl
     (fun _ => rfl) (by decide)⟩

/-- C7: a "before" call (cnt != 0) with an opcode outside the allowed set
{CP_EXEC_CS_INDIRECT, CP_EXEC_CS, CP_DRAW_INDX, CP_DRAW_INDX_OFFSET,
CP_DRAW_INDIRECT, CP_DRAW_INDX_INDIRECT, CP_DRAW_INDIRECT_MULTI,
CP_DRAW_AUTO, CP_BLIT} is ignored: no packets are emitted, the counter is
not incremented, the whole state is unchanged. -/
theorem C7_before_filter_noop (device : tu_device) (st : EmitState)
    (opcode : Opcode) (cnt : Nat) (hcnt : cnt ≠ 0)
    (hop : before_opcode_allowed opcode = false) :
    tu_cs_emit_sync_breadcrumb device st opcode cnt = st :=
  emit_nop_of_bad_opcode device st opcode cnt hcnt hop

/-- C7 witness: a CP_NOP "before" call on the fresh state changes nothing. -/
theorem C7_before_filter_noop_witness :
    (4 : Nat) ≠ 0 ∧ before_opcode_allowed Opcode.CP_NOP = false ∧
    tu_cs_emit_sync_breadcrumb dev0 st0 Opcode.CP_NOP 4 = st0 :=
  ⟨by decide, rfl,
   C7_before_filter_noop dev0 st0 Opcode.CP_NOP 4 (by decide) rfl⟩

/-- C10: an "after" call (cnt == 0) on a growable stream with a live context
ignores the opcode filter: for every opcode the counter advances and the
burst is emitted unless the breakpoint gate suppresses it, and the call
leaves cs.breadcrumb_emit_after unchanged. -/
theorem C10_after_call_unfiltered (device : tu_device) (st : EmitState)
    (opcode : Opcode) (cnt : Nat) (c : breadcrumbs_context)
    (hm : st.cs.mode = TuCsMode.GROW) (hc : st.ctx = some c)
    (hs : c.thread_stop = false) (hcnt : cnt = 0) :
    (tu_cs_emit_sync_breadcrumb device st opcode cnt).ctx =
      some { c with breadcrumb_idx := (c.breadcrumb_idx + 1) % 2 ^ 32 } ∧
    (tu_cs_emit_sync_breadcrumb device st opcode cnt).cs.breadcrumb_emit_after =
      st.cs.breadcrumb_emit_after ∧
    ((c.breadcrumb_breakpoint ≠ 2 ^ 32 - 1 ∧
        (c.breadcrumb_idx + 1) % 2 ^ 32 < c.breadcrumb_breakpoint) →
      (tu_cs_emit_sync_breadcrumb device st opcode cnt).cs.words =
        st.cs.words) ∧
    (¬(c.breadcrumb_breakpoint ≠ 2 ^ 32 - 1 ∧
        (c.breadcrumb_idx + 1) % 2 ^ 32 < c.breadcrumb_breakpoint) →
      (tu_cs_emit_sync_breadcrumb device st opcode cnt).cs.words =
        st.cs.words ++ sync_burst device ((c.breadcrumb_idx + 1) % 2 ^ 32)) := by
  have hpass : passes_op opcode cnt = true := by simp [passes_op, hcnt]
  by_cases hg : c.breadcrumb_breakpoint ≠ 2 ^ 32 - 1 ∧
      (c.breadcrumb_idx + 1) % 2 ^ 32 < c.breadcrumb_breakpoint
  · rw [emit_pass_suppressed device st opcode cnt c hm hc hs hpass hg.1 hg.2]
    exact ⟨rfl, rfl, fun _ => rfl, fun hn => absurd hg hn⟩
  · rw [emit_pass_burst device st opcode cnt c hm hc hs hpass hg]
    refine ⟨rfl, ?_, fun hyes => absurd hyes hg, fun _ => rfl⟩
    simp [hcnt]

/-- C10 witness: an "after" call with the filtered-out opcode CP_NOP on the
fresh state still advances the counter and emits the burst. -/
theorem C10_after_call_unfiltered_witness :
    st0.cs.mode = TuCsMode.GROW ∧ st0.ctx = some ctx0 ∧
    ctx0.thread_stop = false ∧ (0 : Nat) = 0 ∧
    (tu_cs_emit_sync_breadcrumb dev0 st0 Opcode.CP_NOP 0).ctx =
      some { ctx0 with breadcrumb_idx := (ctx0.breadcrumb_idx + 1) % 2 ^ 32 } ∧
    (tu_cs_emit_sync_breadcrumb dev0 st0 Opcode.CP_NOP 0).cs.breadcrumb_emit_after =
      st0.cs.breadcrumb_emit_after ∧
    (¬(ctx0.breadcrumb_breakpoint ≠ 2 ^ 32 - 1 ∧
        (ctx0.breadcrumb_idx + 1) % 2 ^ 32 < ctx0.breadcrumb_breakpoint) →
      (tu_cs_emit_sync_breadcrumb dev0 st0 Opcode.CP_NOP 0).cs.words =
        st0.cs.words ++ sync_burst dev0 ((ctx0.breadcrumb_idx + 1) % 2 ^ 32)) :=
  ⟨rfl, rfl, rfl, rfl,
   (C10_after_call_unfiltered dev0 st0 Opcode.CP_NOP 0 ctx0 rfl rfl rfl rfl).1,
   (C10_after_call_unfiltered dev0 st0 Opcode.CP_NOP 0 ctx0 rfl rfl rfl rfl).2.1,
   (C10_after_call_unfiltered dev0 st0 Opcode.CP_NOP 0 ctx0 rfl rfl rfl rfl).2.2.2⟩

/-- C4: with a non-sentinel breakpoint, a filtered call whose breadcrumb
index i is below the breakpoint is suppressed (the command stream is
untouched, including breadcrumb_emit_after), while a call with i at or above
the breakpoint appends the full sync burst publishing i. -/
theorem C4_breakpoint_gate (device : tu_device) (st : EmitState)
    (opcode : Opcode) (cnt : Nat) (c : breadcrumbs_context)
    (hm : st.cs.mode = TuCsMode.GROW) (hc : st.ctx = some c)
    (hs : c.thread_stop = false)
    (hbp : c.breadcrumb_breakpoint ≠ 2 ^ 32 - 1)
    (hop : cnt ≠ 0 → before_opcode_allowed opcode = true) :
    ((c.breadcrumb_idx + 1) % 2 ^ 32 < c.breadcrumb_breakpoint →
      (tu_cs_emit_sync_breadcrumb device st opcode cnt).cs = st.cs) ∧
    (c.breadcrumb_breakpoint ≤ (c.breadcrumb_idx + 1) % 2 ^ 32 →
      (tu_cs_emit_sync_breadcrumb device st opcode cnt).cs.words =
        st.cs.words ++ sync_burst device ((c.breadcrumb_idx + 1) % 2 ^ 32)) := by
  have hpass : passes_op opcode cnt = true := by
    by_cases hcnt : cnt = 0
    · simp [passes_op, hcnt]
    · simp [passes_op, hcnt, hop hcnt]
  constructor
  · intro hlt
    rw [emit_pass_suppressed device st opcode cnt c hm hc hs hpass hbp hlt]
  · intro hge
    have hgate : ¬(c.breadcrumb_breakpoint ≠ 2 ^ 32 - 1 ∧
        (c.breadcrumb_idx + 1) % 2 ^ 32 < c.breadcrumb_breakpoint) :=
      fun hcontra => absurd hcontra.2 (Nat.not_lt.mpr hge)
    rw [emit_pass_burst device st opcode cnt c hm hc hs hpass hgate]

/-- C4 witness: with break=100, breadcrumb 99 is suppressed (counter at 98)
and breadcrumb 100 emits the burst (counter at 99). -/
theorem C4_breakpoint_gate_witness :
    ((99 : Nat) < 100 →
      (tu_cs_emit_sync_breadcrumb dev0
        { cs := cs0,
          ctx := some { ctx0 with
            breadcrumb_breakpoint := 100, breadcrumb_idx := 98 } }
        Opcode.CP_DRAW_INDX 4).cs = cs0) ∧
    ((100 : Nat) ≤ 100 →
      (tu_cs_emit_sync_breadcrumb dev0
        { cs := cs0,
          ctx := some { ctx0 with
            breadcrumb_breakpoint := 100, breadcrumb_idx := 99 } }
        Opcode.CP_DRAW_INDX 4).cs.words = cs0.words ++ sync_burst dev0 100) := by
  constructor
  · intro h
    have h99 : ((98 : Nat) + 1) % 2 ^ 32 < 100 := by norm_num
    exact (C4_breakpoint_gate dev0
      { cs := cs0,
        ctx := some { ctx0 with
          breadcrumb_breakpoint := 100, breadcrumb_idx := 98 } }
      Opcode.CP_DRAW_INDX 4
      { ctx0 with breadcrumb_breakpoint := 100, breadcrumb_idx := 98 }
      rfl rfl rfl (by decide) (fun _ => rfl)).1 h99
  · intro h
    have h100 : (100 : Nat) ≤ ((99 : Nat) + 1) % 2 ^ 32 := by norm_num
    have := (C4_breakpoint_gate dev0
      { cs := cs0,
        ctx := some { ctx0 with
          breadcrumb_breakpoint := 100, breadcrumb_idx := 99 } }
      Opcode.CP_DRAW_INDX 4
      { ctx0 with breadcrumb_breakpoint := 100, breadcrumb_idx := 99 }
      rfl rfl rfl (by decide) (fun _ => rfl)).2 h100
    simpa using this

/-- With at most 2^32 - 1 values the mod-2^32 reduction is the identity and
the received indices are literally 1, 2, ..., n. -/
lemma map_idx_mod_eq_range' (n : Nat) (h : n ≤ 2 ^ 32 - 1) :
    List.map (fun k => (0 + 1 + k) % 2 ^ 32) (List.range n) =
      List.range' 1 n := by
  induction n with
  | zero => simp
  | succ m ihm =>
    rw [List.range_succ, List.map_append, ihm (by omega),
      List.range'_1_concat]
    have : (0 + 1 + m) % 2 ^ 32 = 1 + m := by omega
    simp [this, Nat.add_comm]
    omega

/-- C3 (amended): on a freshly initialized context, for every call sequence
whose filtered calls number at most 2^32 - 1, the filtered calls receive the
contiguous, strictly increasing breadcrumb values 1, 2, ..., n (the i-th
filtered call receives value i), whatever the breakpoint gate then decides;
beyond 2^32 - 1 filtered calls the uint32_t counter wraps. -/
theorem C3_amended_indices_contiguous (device : tu_device) (st : EmitState)
    (c : breadcrumbs_context) (calls : List (Opcode × Nat))
    (hm : st.cs.mode = TuCsMode.GROW) (hc : st.ctx = some c)
    (hs : c.thread_stop = false) (hidx : c.breadcrumb_idx = 0)
    (hlen : List.countP (fun p => passes_op p.1 p.2) calls ≤ 2 ^ 32 - 1) :
    emit_calls_received device st calls =
      List.range' 1 (List.countP (fun p => passes_op p.1 p.2) calls) := by
  rw [emit_calls_received_eq device calls st c hm hc hs, hidx]
  exact map_idx_mod_eq_range' _ hlen

/-- C3 counterexample: the claim as stated, without a bound on the sequence
length, fails on the code: after 2^32 filtered calls the uint32_t counter
has wrapped, so the received values are not the contiguous strictly
increasing sequence 1..n (the 2^32-th filtered call receives 0). -/
theorem C3_counterexample :
    ¬(∀ calls : List (Opcode × Nat),
        emit_calls_received dev0 st0 calls =
          List.range' 1 (List.countP (fun p => passes_op p.1 p.2) calls)) := by
  intro h
  have hcalls := h (List.replicate (2 ^ 32) (Opcode.CP_DRAW_INDX, 4))
  have hcount : List.countP (fun p => passes_op p.1 p.2)
      (List.replicate (2 ^ 32) (Opcode.CP_DRAW_INDX, 4)) = 2 ^ 32 := by
    rw [List.countP_replicate]
    simp [passes_op, before_opcode_allowed]
  have htrace := emit_calls_received_eq dev0
    (List.replicate (2 ^ 32) (Opcode.CP_DRAW_INDX, 4)) st0 ctx0 rfl rfl rfl
  rw [hcount] at hcalls htrace
  rw [htrace] at hcalls
  have hmem : (2 ^ 32 : Nat) ∈ List.range' 1 (2 ^ 32) := by
    rw [List.mem_range']
    exact ⟨2 ^ 32 - 1, by omega, by omega⟩
  rw [← hcalls] at hmem
  obtain ⟨k, _, hfk⟩ := List.mem_map.mp hmem
  have hlt : (ctx0.breadcrumb_idx + 1 + k) % 2 ^ 32 < 2 ^ 32 :=
    Nat.mod_lt _ (by norm_num)
  omega

/-- C3 witness: a mixed sequence of four calls of which three pass the
filters (a DRAW_INDX "before", an ignored CP_NOP "before", a CP_NOP
"after", a BLIT "before") receives exactly the values 1, 2, 3. -/
theorem C3_amended_indices_contiguous_witness :
    st0.cs.mode = TuCsMode.GROW ∧ st0.ctx = some ctx0 ∧
    ctx0.thread_stop = false ∧ ctx0.breadcrumb_idx = 0 ∧
    List.countP (fun p => passes_op p.1 p.2)
      [(Opcode.CP_DRAW_INDX, 4), (Opcode.CP_NOP, 7), (Opcode.CP_NOP, 0),
       (Opcode.CP_BLIT, 2)] ≤ 2 ^ 32 - 1 ∧
    emit_calls_received dev0 st0
      [(Opcode.CP_DRAW_INDX, 4), (Opcode.CP_NOP, 7), (Opcode.CP_NOP, 0),
       (Opcode.CP_BLIT, 2)] =
      List.range' 1 (List.countP (fun p => passes_op p.1 p.2)
        [(Opcode.CP_DRAW_INDX, 4), (Opcode.CP_NOP, 7), (Opcode.CP_NOP, 0),
         (Opcode.CP_BLIT, 2)]) :=
  ⟨rfl, rfl, rfl, rfl, by decide,
   C3_amended_indices_contiguous dev0 st0 ctx0
     [(Opcode.CP_DRAW_INDX, 4), (Opcode.CP_NOP, 7), (Opcode.CP_NOP, 0),
      (Opcode.CP_BLIT, 2)] rfl rfl rfl rfl (by decide)⟩

/-- C2: in every poller iteration that observes a new breadcrumb value, on a
successful send the actions are exactly one UDP datagram whose payload is
the 4-byte big-endian encoding of the value, then (when the breakpoint
fires) the interactive prompt with its human acknowledgement, then the write
of the value to cpu_seqno — so cpu_seqno is written only after the send
succeeded and after the acknowledgement; on a failed send nothing is sent,
cpu_seqno keeps its old value and the loop exits. -/
theorem C2_poller_send_then_ack (ctx : breadcrumbs_context)
    (st : PollerState) (cur : Nat) (h : cur ≠ st.last_breadcrumb) :
    (sync_gpu_with_cpu_iter ctx st cur true).2.1 =
      PollerAction.send_udp (htonl_bytes cur) ::
        ((if cur ≥ ctx.breadcrumb_breakpoint ∧
              st.breakpoint_hits ≥ ctx.breadcrumb_breakpoint_hits then
            [PollerAction.prompt_ack cur]
          else []) ++ [PollerAction.write_cpu_seqno cur]) ∧
    (sync_gpu_with_cpu_iter ctx st cur true).1.cpu_seqno = cur ∧
    (sync_gpu_with_cpu_iter ctx st cur false).2.1 =
      [PollerAction.log_sendto_failed] ∧
    (sync_gpu_with_cpu_iter ctx st cur false).1.cpu_seqno = st.cpu_seqno ∧
    (sync_gpu_with_cpu_iter ctx st cur false).2.2 = false := by
  refine ⟨?_, ?_, ?_, ?_, ?_⟩ <;>
    simp [sync_gpu_with_cpu_iter, h]

/-- C2 witness: observing value 5 from the initial poller state under the
sentinel configuration sends the big-endian datagram and then acks. -/
theorem C2_poller_send_then_ack_witness :
    (5 : Nat) ≠ pst0.last_breadcrumb ∧
    ((sync_gpu_with_cpu_iter ctx0 pst0 5 true).2.1 =
      PollerAction.send_udp (htonl_bytes 5) ::
        ((if (5 : Nat) ≥ ctx0.breadcrumb_breakpoint ∧
              pst0.breakpoint_hits ≥ ctx0.breadcrumb_breakpoint_hits then
            [PollerAction.prompt_ack 5]
          else []) ++ [PollerAction.write_cpu_seqno 5]) ∧
    (sync_gpu_with_cpu_iter ctx0 pst0 5 true).1.cpu_seqno = 5 ∧
    (sync_gpu_with_cpu_iter ctx0 pst0 5 false).2.1 =
      [PollerAction.log_sendto_failed] ∧
    (sync_gpu_with_cpu_iter ctx0 pst0 5 false).1.cpu_seqno = pst0.cpu_seqno ∧
    (sync_gpu_with_cpu_iter ctx0 pst0 5 false).2.2 = false) :=
  ⟨by decide, C2_poller_send_then_ack ctx0 pst0 5 (by decide)⟩

/-- C6: in each iteration that observes a new value and whose send succeeds,
the interactive prompt fires exactly when the value is at or above the
breakpoint and the hits counted in strictly earlier iterations reach the
configured hit count; the hit counter is incremented after the prompt check,
exactly when the observed value equals the breakpoint. -/
theorem C6_prompt_condition (ctx : breadcrumbs_context) (st : PollerState)
    (cur : Nat) (h : cur ≠ st.last_breadcrumb) :
    (List.countP is_prompt_ack (sync_gpu_with_cpu_iter ctx st cur true).2.1 =
      if cur ≥ ctx.breadcrumb_breakpoint ∧
          st.breakpoint_hits ≥ ctx.breadcrumb_breakpoint_hits then 1
      else 0) ∧
    ((sync_gpu_with_cpu_iter ctx st cur true).1.breakpoint_hits =
      if ctx.breadcrumb_breakpoint = cur then st.breakpoint_hits + 1
      else st.breakpoint_hits) := by
  constructor
  · simp only [sync_gpu_with_cpu_iter, if_neg h]
    split
    · simp_all
    · split <;> split <;> simp [is_prompt_ack]
  · simp only [sync_gpu_with_cpu_iter, if_neg h]
    split
    · simp_all
    · split <;> rfl

/-- C6 witness: with break=100 hits=1 and no hit yet, observing 100 does not
prompt (the hit accumulated by this very observation does not count), and
the hit counter becomes 1. -/
theorem C6_prompt_condition_witness :
    (100 : Nat) ≠ pst0.last_breadcrumb ∧
    (List.countP is_prompt_ack
      (sync_gpu_with_cpu_iter
        { ctx0 with
            breadcrumb_breakpoint := 100, breadcrumb_breakpoint_hits := 1 }
        pst0 100 true).2.1 =
      if (100 : Nat) ≥ (100 : Nat) ∧ pst0.breakpoint_hits ≥ (1 : Nat) then 1
      else 0) ∧
    ((sync_gpu_with_cpu_iter
        { ctx0 with
            breadcrumb_breakpoint := 100, breadcrumb_breakpoint_hits := 1 }
        pst0 100 true).1.breakpoint_hits =
      if (100 : Nat) = (100 : Nat) then pst0.breakpoint_hits + 1
      else pst0.breakpoint_hits) := by
  have hmain := C6_prompt_condition
    { ctx0 with breadcrumb_breakpoint := 100, breadcrumb_breakpoint_hits := 1 }
    pst0 100 (by decide)
  exact ⟨by decide, hmain.1, hmain.2⟩

/-- One poller iteration observing a value below the sentinel never
prompts, whatever the loop state and send outcome. -/
lemma iter_no_prompt_below_sentinel (ctx : breadcrumbs_context)
    (st : PollerState) (cur : Nat) (ok : Bool)
    (hbp : ctx.breadcrumb_breakpoint = 2 ^ 32 - 1)
    (hcur : cur < 2 ^ 32 - 1) :
    List.countP is_prompt_ack (sync_gpu_with_cpu_iter ctx st cur ok).2.1 =
      0 := by
  unfold sync_gpu_with_cpu_iter
  by_cases hlast : cur = st.last_breadcrumb
  · simp [hlast]
  · rw [if_neg hlast]
    cases ok with
    | false => simp [is_prompt_ack]
    | true =>
      have hnge : ¬(ctx.breadcrumb_breakpoint ≤ cur) := by omega
      simp [hnge, is_prompt_ack]

/-- C5 (amended): when breakpoint_index is the all-ones sentinel 2^32 - 1,
the poller never issues the interactive prompt for any sequence of observed
values different from 2^32 - 1; the sentinel does not silence the prompt for
the value 2^32 - 1 itself, where the condition current >= breakpoint still
holds. -/
theorem C5_amended_sentinel_no_prompt (ctx : breadcrumbs_context)
    (hbp : ctx.breadcrumb_breakpoint = 2 ^ 32 - 1) :
    ∀ (obs : List (Nat × Bool)) (st : PollerState),
      (∀ p ∈ obs, (p : Nat × Bool).1 < 2 ^ 32 - 1) →
      List.countP is_prompt_ack (sync_gpu_with_cpu_run ctx st obs).2 = 0 := by
  intro obs
  induction obs with
  | nil =>
    intro st _
    simp [sync_gpu_with_cpu_run]
  | cons p rest ihp =>
    intro st hobs
    obtain ⟨cur, ok⟩ := p
    have hcur : cur < 2 ^ 32 - 1 := hobs (cur, ok) (by simp)
    have hrest : ∀ q ∈ rest, (q : Nat × Bool).1 < 2 ^ 32 - 1 :=
      fun q hq => hobs q (List.mem_cons_of_mem _ hq)
    have hacts := iter_no_prompt_below_sentinel ctx st cur ok hbp hcur
    simp only [sync_gpu_with_cpu_run]
    rcases hiter : sync_gpu_with_cpu_iter ctx st cur ok with ⟨st', acts, cont⟩
    rw [hiter] at hacts
    simp only at hacts
    cases cont with
    | true =>
      have h2 := ihp st' hrest
      rcases hrun : sync_gpu_with_cpu_run ctx st' rest with ⟨st2, acts2⟩
      rw [hrun] at h2
      simp only at h2
      simp [hrun, List.countP_append, hacts, h2]
    | false =>
      simpa using hacts

/-- C5 counterexample: the claim as stated is false at the value 2^32 - 1:
under the sentinel configuration of ctx0 (breakpoint 2^32 - 1, zero hits),
observing 2^32 - 1 issues the interactive prompt. -/
theorem C5_counterexample :
    ctx0.breadcrumb_breakpoint = 2 ^ 32 - 1 ∧
    PollerAction.prompt_ack (2 ^ 32 - 1) ∈
      (sync_gpu_with_cpu_run ctx0 pst0 [(2 ^ 32 - 1, true)]).2 := by
  exact ⟨rfl, by decide⟩

/-- C5 witness: under the sentinel configuration, observing 1 then 2 never
prompts. -/
theorem C5_amended_sentinel_no_prompt_witness :
    ((1 : Nat) < 2 ^ 32 - 1 ∧ (2 : Nat) < 2 ^ 32 - 1) ∧
    List.countP is_prompt_ack
      (sync_gpu_with_cpu_run ctx0 pst0 [(1, true), (2, true)]).2 = 0 :=
  ⟨⟨by norm_num, by norm_num⟩,
   C5_amended_sentinel_no_prompt ctx0 rfl [(1, true), (2, true)] pst0
     (by intro p hp; fin_cases hp <;> norm_num)⟩

/-- C8: init attaches no context when the option string is absent, or when
it does not parse as HOST:PORT,break=INDEX:HITS (logging an error in the
malformed case) — leaving the emitter and finish no-ops for that device —
and when the string parses it zeroes both seqnos (cpu first, then gpu)
before spawning the poller thread, starting from a context with a zero
counter and a clear stop flag. -/
theorem C8_init_lifecycle :
    (tu_breadcrumbs_init none = (none, [])) ∧
    (∀ s, parse_breadcrumbs_opt s = none →
      tu_breadcrumbs_init (some s) =
        (none, [InitAction.log_wrong_value])) ∧
    (∀ s host port bp hits,
      parse_breadcrumbs_opt s = some (host, port, bp, hits) →
      tu_breadcrumbs_init (some s) =
        (some { remote_host := host
                remote_port := port
                breadcrumb_breakpoint := bp
                breadcrumb_breakpoint_hits := hits
                thread_stop := false
                breadcrumb_idx := 0 },
         [InitAction.zero_cpu_seqno, InitAction.zero_gpu_seqno,
          InitAction.spawn_poller])) ∧
    (∀ (device : tu_device) (st : EmitState) (opcode : Opcode) (cnt : Nat),
      st.ctx = none → tu_cs_emit_sync_breadcrumb device st opcode cnt = st) ∧
    (∀ dev : DeviceCtxState, dev.breadcrumbs_ctx = none →
      tu_breadcrumbs_finish dev = (dev, [])) := by
  refine ⟨rfl, ?_, ?_, ?_, ?_⟩
  · intro s h
    simp [tu_breadcrumbs_init, h]
  · intro s host port bp hits h
    simp [tu_breadcrumbs_init, h]
  · intro device st opcode cnt h
    unfold tu_cs_emit_sync_breadcrumb
    by_cases hm : st.cs.mode = TuCsMode.GROW
    · simp [hm, h]
    · simp [hm]
  · intro dev h
    simp [tu_breadcrumbs_finish, h]

/-- C8 witness: a malformed string leaves the device uninstrumented with an
error logged; the string "127.0.0.1:9999,break=-1:0" parses to the sentinel
configuration and init zeroes the seqnos before spawning; with no context
the emitter and finish do nothing. -/
theorem C8_init_lifecycle_witness :
    parse_breadcrumbs_opt "bogus" = none ∧
    tu_breadcrumbs_init (some "bogus") =
      (none, [InitAction.log_wrong_value]) ∧
    parse_breadcrumbs_opt "127.0.0.1:9999,break=-1:0" =
      some ("127.0.0.1", 9999, 2 ^ 32 - 1, 0) ∧
    tu_breadcrumbs_init (some "127.0.0.1:9999,break=-1:0") =
      (some ctx0,
       [InitAction.zero_cpu_seqno, InitAction.zero_gpu_seqno,
        InitAction.spawn_poller]) ∧
    tu_cs_emit_sync_breadcrumb dev0 { cs := cs0, ctx := none }
      Opcode.CP_DRAW_INDX 4 = { cs := cs0, ctx := none } ∧
    tu_breadcrumbs_finish { breadcrumbs_ctx := none, ctx_freed := false } =
      ({ breadcrumbs_ctx := none, ctx_freed := false }, []) :=
  ⟨by decide,
   C8_init_lifecycle.2.1 "bogus" (by decide),
   by decide,
   C8_init_lifecycle.2.2.1 "127.0.0.1:9999,break=-1:0" "127.0.0.1" 9999
     (2 ^ 32 - 1) 0 (by decide),
   C8_init_lifecycle.2.2.2.1 dev0 { cs := cs0, ctx := none }
     Opcode.CP_DRAW_INDX 4 rfl,
   C8_init_lifecycle.2.2.2.2 { breadcrumbs_ctx := none, ctx_freed := false }
     rfl⟩

/-- C9: finish is idempotent: with no context, or a context whose stop flag
is already set, it returns without effect; otherwise it sets the stop flag,
joins the poller thread and releases the context, after which a second call
returns without effect. -/
theorem C9_finish_idempotent (dev : DeviceCtxState) :
    (dev.breadcrumbs_ctx = none → tu_breadcrumbs_finish dev = (dev, [])) ∧
    (∀ c, dev.breadcrumbs_ctx = some c → c.thread_stop = true →
      tu_breadcrumbs_finish dev = (dev, [])) ∧
    (∀ c, dev.breadcrumbs_ctx = some c → c.thread_stop = false →
      tu_breadcrumbs_finish dev =
        ({ breadcrumbs_ctx := some { c with thread_stop := true },
           ctx_freed := true },
         [FinishAction.join_poller_thread, FinishAction.free_ctx]) ∧
      tu_breadcrumbs_finish (tu_breadcrumbs_finish dev).1 =
        ((tu_breadcrumbs_finish dev).1, [])) := by
  refine ⟨?_, ?_, ?_⟩
  · intro h
    simp [tu_breadcrumbs_finish, h]
  · intro c hc hs
    simp [tu_breadcrumbs_finish, hc, hs]
  · intro c hc hs
    have hfin : tu_breadcrumbs_finish dev =
        ({ breadcrumbs_ctx := some { c with thread_stop := true },
           ctx_freed := true },
         [FinishAction.join_poller_thread, FinishAction.free_ctx]) := by
      simp [tu_breadcrumbs_finish, hc, hs]
    refine ⟨hfin, ?_⟩
    rw [hfin]
    simp [tu_breadcrumbs_finish]

/-- C9 witness: on a device carrying the live ctx0, finish stops, joins and
frees, and a second finish is a no-op. -/
theorem C9_finish_idempotent_witness :
    ({ breadcrumbs_ctx := some ctx0,
       ctx_freed := false } : DeviceCtxState).breadcrumbs_ctx = some ctx0 ∧
    ctx0.thread_stop = false ∧
    (tu_breadcrumbs_finish { breadcrumbs_ctx := some ctx0, ctx_freed := false } =
      ({ breadcrumbs_ctx := some { ctx0 with thread_stop := true },
         ctx_freed := true },
       [FinishAction.join_poller_thread, FinishAction.free_ctx]) ∧
     tu_breadcrumbs_finish
        (tu_breadcrumbs_finish
          { breadcrumbs_ctx := some ctx0, ctx_freed := false }).1 =
       ((tu_breadcrumbs_finish
          { breadcrumbs_ctx := some ctx0, ctx_freed := false }).1, [])) :=
  ⟨rfl, rfl,
   (C9_finish_idempotent
     { breadcrumbs_ctx := some ctx0, ctx_freed := false }).2.2 ctx0 rfl rfl⟩

end TuBreadcrumbs
